import Mathlib

/-!
Verification model of the timesheet application's data-synchronization and
derived-state core (src/src/utils/performance.ts and the screen-level
operations in src/src/screens/TimesheetScreen.tsx, NewEntryScreen.tsx,
ProjectScreen.tsx).  JavaScript numbers are modelled as `Option ℚ`, where
`none` plays the role of NaN (and of an absent numeric field where the code
treats the two alike via `|| 0`); strings are Lean `String`s.
-/

/-! The rational arithmetic of the batteries library is irreducible by
default; concrete evaluation by `decide` in the theorems below needs it
unfolded. -/

attribute [local semireducible] Rat.add Rat.mul Rat.inv Rat.sub Rat.ofScientific

/-! ## JavaScript numeric and string primitives -/

/-- Leading-whitespace skipping performed by the ECMAScript `parseFloat`
before reading a number. -/
def skipWs : List Char → List Char
  | c :: cs => if c = ' ' ∨ c = '\t' ∨ c = '\n' ∨ c = '\r' then skipWs cs else c :: cs
  | [] => []

/-- Value of a list of decimal digit characters, most significant first. -/
def digitsToNat (ds : List Char) : ℕ :=
  ds.foldl (fun n c => 10 * n + (c.toNat - '0'.toNat)) 0

/-- Value of the digit run at the head of the list (0 when there is none);
used for the exponent part of a decimal literal. -/
def expVal (cs : List Char) : ℤ :=
  (digitsToNat (cs.takeWhile Char.isDigit) : ℤ)

/-- Optionally signed exponent digits. -/
def parseSignedDigits (cs : List Char) : ℤ :=
  match cs with
  | '+' :: r => expVal r
  | '-' :: r => -(expVal r)
  | r => expVal r

/-- Exponent marker (`e` or `E`) followed by optionally signed digits; a
missing or empty exponent contributes the factor 10 ^ 0 = 1, matching the
longest-valid-prefix behaviour of `parseFloat`. -/
def parseExponent (cs : List Char) : ℤ :=
  match cs with
  | 'e' :: rest => parseSignedDigits rest
  | 'E' :: rest => parseSignedDigits rest
  | _ => 0

/-- Unsigned decimal mantissa `digits [. digits]` at the head of the list;
`none` when no digit is present on either side of the point.  Returns the
value and the unconsumed remainder. -/
def parseMantissa (cs : List Char) : Option (ℚ × List Char) :=
  let ip := cs.takeWhile Char.isDigit
  let rest1 := cs.drop ip.length
  match rest1 with
  | '.' :: rest2 =>
      let fp := rest2.takeWhile Char.isDigit
      if ip.isEmpty && fp.isEmpty then none
      else some ((digitsToNat ip : ℚ) + (digitsToNat fp : ℚ) / ((10 : ℚ) ^ fp.length),
                 rest2.drop fp.length)
  | _ => if ip.isEmpty then none else some ((digitsToNat ip : ℚ), rest1)

/-- Model of the ECMAScript `parseFloat` builtin used throughout the screens:
skip leading whitespace, read an optional sign and the longest decimal
literal prefix (`digits [. digits] [e [sign] digits]`), and return its exact
rational value; `none` models the NaN result on inputs with no numeric
prefix.  (The special literal `Infinity` is outside the modelled fragment;
no definition or theorem below feeds it in.) -/
def jsParseFloat (s : String) : Option ℚ :=
  let cs := skipWs s.data
  match cs with
  | '+' :: r => (parseMantissa r).map (fun p => p.1 * (10 : ℚ) ^ parseExponent p.2)
  | '-' :: r => (parseMantissa r).map (fun p => -(p.1 * (10 : ℚ) ^ parseExponent p.2))
  | r => (parseMantissa r).map (fun p => p.1 * (10 : ℚ) ^ parseExponent p.2)

/-- JavaScript `+` on numbers: NaN poisons the sum. -/
def jsAdd : Option ℚ → Option ℚ → Option ℚ
  | some a, some b => some (a + b)
  | _, _ => none

/-- JavaScript `-` on numbers: NaN poisons the difference. -/
def jsSub : Option ℚ → Option ℚ → Option ℚ
  | some a, some b => some (a - b)
  | _, _ => none

/-- JavaScript `Math.max(0, x)`: `Math.max` returns NaN when any argument is
NaN. -/
def jsMaxZero : Option ℚ → Option ℚ
  | some q => some (max 0 q)
  | none => none

/-- JavaScript `x || 0` on a numeric field: an absent field or NaN (both
`none` here) and the falsy number 0 give 0; any other number is kept. -/
def jsOrZero : Option ℚ → ℚ
  | some q => q
  | none => 0

/-- JavaScript `s || d` on strings: only the empty string is falsy. -/
def jsStrOr (s d : String) : String :=
  if s = "" then d else s

/-- JavaScript `x <= c` where `x` may be NaN: every comparison with NaN is
false. -/
def jsLe (x : Option ℚ) (c : ℚ) : Bool :=
  match x with
  | some q => decide (q ≤ c)
  | none => false

/-- JavaScript `x > c` where `x` may be NaN: every comparison with NaN is
false. -/
def jsGt (x : Option ℚ) (c : ℚ) : Bool :=
  match x with
  | some q => decide (c < q)
  | none => false

/-- JavaScript falsiness of an optional numeric field (`!x`): true for an
absent field, NaN, and the number 0. -/
def jsFalsyNum : Option ℚ → Bool
  | none => true
  | some q => decide (q = 0)

/-! ## Data model (src/src/screens interfaces `TimeEntry`, `Project`) -/

/-- A time entry ("task") as held by the screens: `hours` is stored as
text. -/
structure TimeEntry where
  id : String
  date : String
  projectId : String
  projectName : String
  task : String
  hours : String
  userId : String
  deriving DecidableEq

/-- A project document; `totalHours` is the denormalized running sum, kept
optional because the code reads it as `projectData.totalHours || 0`. -/
structure Project where
  id : String
  name : String
  createdBy : String
  totalHours : Option ℚ
  assignedUsers : List String
  deriving DecidableEq

/-! ## Derived aggregation (TimesheetScreen.tsx line 157, ProjectScreen.tsx
lines 911-920) -/

/-- `timeEntries.reduce((sum, entry) => sum + parseFloat(entry.hours || '0'), 0)`:
the running JS sum of the parsed hours, with NaN (`none`) poisoning the
total. -/
def totalHours (entries : List TimeEntry) : Option ℚ :=
  entries.foldl (fun sum e => jsAdd sum (jsParseFloat (jsStrOr e.hours "0"))) (some 0)

/-- `if (!userData?.hourlyRate) return 0; return totalHours * userData.hourlyRate;`
(ProjectScreen.tsx lines 917-920): the hourly rate is an optional field and
a falsy (absent or zero) rate short-circuits to 0. -/
def totalEarnings (hourlyRate : Option ℚ) (hours : ℚ) : ℚ :=
  if jsFalsyNum hourlyRate then 0 else hours * (hourlyRate.getD 0)

/-- What the summary row shows about money. -/
inductive RateDisplay where
  | earnings (amount : ℚ)
  | noRateSet
  deriving DecidableEq

/-- `userData?.hourlyRate ? <Total: totalEarnings> : <No hourly rate set>`
(ProjectScreen.tsx lines 946-953): the branch is chosen by JS truthiness of
the rate field. -/
def summaryDisplay (hourlyRate : Option ℚ) (hours : ℚ) : RateDisplay :=
  if jsFalsyNum hourlyRate then .noRateSet else .earnings (totalEarnings hourlyRate hours)

/-! ## Time-entry creation validation (NewEntryScreen.tsx lines 41-55,
TimesheetScreen.tsx lines 78-82) and the store accesses that follow -/

/-- Outcome of the validation prologue of a time-entry creation. -/
inductive EntryValidation where
  | missingFields
  | nonPositiveHours
  | hoursTooLarge
  | passed
  deriving DecidableEq

/-- NewEntryScreen.addTimeEntry validation: empty date/task/hours alert and
return; then `parseFloat(hours) <= 0` and `parseFloat(hours) > 24` alert and
return.  NaN compares false on both, so a non-numeric non-empty hours string
reaches `passed`. -/
def newEntryValidate (date task hours : String) : EntryValidation :=
  if date = "" ∨ task = "" ∨ hours = "" then .missingFields
  else if jsLe (jsParseFloat hours) 0 then .nonPositiveHours
  else if jsGt (jsParseFloat hours) 24 then .hoursTooLarge
  else .passed

/-- TimesheetScreen.addTimeEntry validation: only the presence of
date/task/hours is checked; there is no numeric or range check. -/
def timesheetValidate (date task hours : String) : EntryValidation :=
  if date = "" ∨ task = "" ∨ hours = "" then .missingFields else .passed

/-- Store accesses a creation can perform, in order. -/
inductive StoreOp where
  | addTask
  | getProject
  | updateProjectTotal
  deriving DecidableEq

/-- Store accesses performed by NewEntryScreen.addTimeEntry: nothing when
validation returns early; otherwise `addDoc` on tasks, then (when a
projectId is present) the project read and the totalHours update. -/
def newEntryStoreOps (date task hours : String) (projectId : Option String) : List StoreOp :=
  match newEntryValidate date task hours with
  | .passed =>
      .addTask :: (match projectId with
                   | some _ => [.getProject, .updateProjectTotal]
                   | none => [])
  | _ => []

/-- Store accesses performed by TimesheetScreen.addTimeEntry, same shape. -/
def timesheetStoreOps (date task hours : String) (projectId : Option String) : List StoreOp :=
  match timesheetValidate date task hours with
  | .passed =>
      .addTask :: (match projectId with
                   | some _ => [.getProject, .updateProjectTotal]
                   | none => [])
  | _ => []

/-! ## Denormalized project total updates (TimesheetScreen.tsx lines 93-102
and 134-155, NewEntryScreen.tsx lines 75-93) -/

/-- `newTotalHours = (projectData.totalHours || 0) + parseFloat(hours)` —
the creation-side update of the project's running total (both creation
paths compute it this way; NewEntryScreen reaches it only after
validation). -/
def addEntryNewTotal (stored : Option ℚ) (hours : String) : Option ℚ :=
  jsAdd (some (jsOrZero stored)) (jsParseFloat hours)

/-- `newTotalHours = Math.max(0, (projectData.totalHours || 0) - parseFloat(hours))`
— the deletion-side update (confirmDeleteTimeEntry). -/
def deleteEntryNewTotal (stored : Option ℚ) (hours : String) : Option ℚ :=
  jsMaxZero (jsSub (some (jsOrZero stored)) (jsParseFloat hours))

/-! ## Query cache (src/src/utils/performance.ts lines 4-8, 38-70) -/

/-- One entry of the module-level `queryCache` map: a result array (records
abstracted to ids), the `Date.now()` stamp at the write, and the TTL in
milliseconds. -/
structure CacheEntry where
  data : List String
  timestamp : ℤ
  ttl : ℤ
  deriving DecidableEq

/-- The `Map<string, ...>` holding the cache, as an association list with
last-write-wins lookup. -/
def CacheMap := List (String × CacheEntry)

/-- `queryCache.get(key)`. -/
def cacheGet (m : CacheMap) (key : String) : Option CacheEntry :=
  List.lookup key m

/-- `queryCache.set(key, entry)`: unconditional overwrite of the slot. -/
def cacheSet (m : CacheMap) (key : String) (e : CacheEntry) : CacheMap :=
  (key, e) :: List.filter (fun p => !(p.1 == key)) m

/-- Observable outcome of one `getCachedQuery` call: the returned array, the
cache afterwards, and whether `getDocs` (the store query) ran. -/
structure QueryOutcome where
  data : List String
  cache : CacheMap
  storeQueried : Bool

/-- The default `cacheKey || collectionName_JSON(constraints)` computation,
with the serialized constraints abstracted to a string. -/
def cacheKeyFor (cacheKey : Option String) (collectionName serializedConstraints : String) :
    String :=
  match cacheKey with
  | some k => if k = "" then collectionName ++ "_" ++ serializedConstraints else k
  | none => collectionName ++ "_" ++ serializedConstraints

/-- `getCachedQuery` (performance.ts lines 44-65): return the cached array
when the entry exists and `Date.now() - cached.timestamp < cached.ttl`;
otherwise run the store query (its result is the `storeResult` parameter),
overwrite the slot with `{ data, timestamp: Date.now(), ttl }`, and return
the fresh data. -/
def getCachedQuery (m : CacheMap) (key : String) (now : ℤ) (ttl : ℤ)
    (storeResult : List String) : QueryOutcome :=
  match cacheGet m key with
  | some cached =>
      if now - cached.timestamp < cached.ttl then
        ⟨cached.data, m, false⟩
      else
        ⟨storeResult, cacheSet m key ⟨storeResult, now, ttl⟩, true⟩
  | none => ⟨storeResult, cacheSet m key ⟨storeResult, now, ttl⟩, true⟩

/-! ## Live subscription manager (performance.ts lines 88-142,
createOptimizedListener) -/

/-- State of one `createOptimizedListener` handle.  The fields mirror the
closure variables `retryCount` and `unsubscribe`; `active` says whether the
current underlying store subscription is still delivering events (a Firestore
listener is deactivated by its own error and by `unsubscribe()`);
`pending` holds the delays (ms) of scheduled, not-yet-fired retry timers;
`onErrorCount`, `subCount` and `cancelSeen` are observation counters: how
often the caller's `onError` ran, how many underlying subscriptions were
established, and whether the returned cancel function was ever called. -/
structure ListenerState where
  maxRetries : ℕ
  retryCount : ℕ
  unsubSet : Bool
  active : Bool
  pending : List ℕ
  onErrorCount : ℕ
  subCount : ℕ
  cancelSeen : Bool
  deriving DecidableEq

/-- `setupListener` on its success path: `onSnapshot` assigns `unsubscribe`
and establishes one more underlying subscription. -/
def setupListener (s : ListenerState) : ListenerState :=
  { s with unsubSet := true, active := true, subCount := s.subCount + 1 }

/-- The events the event loop can deliver to one handle. -/
inductive LEvent where
  | snapshot
  | error
  | timerFire
  | cancel
  deriving DecidableEq

/-- One event-loop step of `createOptimizedListener`:
* a snapshot on the live subscription runs `onData` and resets `retryCount`
  to 0;
* an error on the live subscription deactivates it (Firestore delivers no
  further events to an errored listener); then, if `retryCount < maxRetries`,
  the code increments `retryCount` and schedules a timer with delay
  `Math.pow(2, retryCount) * 1000` (the **incremented** count), else it calls
  `onError`;
* a firing retry timer runs `if (unsubscribe) { unsubscribe(); setupListener(); }`
  — note the cancel function never clears `unsubscribe`, so this guard stays
  true once any subscription was set up;
* the returned cancel function runs `if (unsubscribe) { unsubscribe(); }`,
  releasing the current subscription but clearing neither `unsubscribe` nor
  any pending timer. -/
def listenerStep (s : ListenerState) : LEvent → ListenerState
  | .snapshot => if s.active then { s with retryCount := 0 } else s
  | .error =>
      if s.active then
        if s.retryCount < s.maxRetries then
          { s with active := false,
                   retryCount := s.retryCount + 1,
                   pending := s.pending ++ [2 ^ (s.retryCount + 1) * 1000] }
        else
          { s with active := false, onErrorCount := s.onErrorCount + 1 }
      else s
  | .timerFire =>
      match s.pending with
      | [] => s
      | _ :: rest =>
          if s.unsubSet then
            setupListener { s with pending := rest, active := false }
          else
            { s with pending := rest }
  | .cancel =>
      if s.unsubSet then
        { s with active := false, cancelSeen := true }
      else
        { s with cancelSeen := true }

/-- `createOptimizedListener(collection, constraints, onData, onError, maxRetries)`
up to its initial `setupListener()` call, on the success path. -/
def createOptimizedListener (maxRetries : ℕ) : ListenerState :=
  setupListener
    { maxRetries := maxRetries, retryCount := 0, unsubSet := false, active := false,
      pending := [], onErrorCount := 0, subCount := 0, cancelSeen := false }

/-- Run a handle through a sequence of event-loop events. -/
def listenerRun (s : ListenerState) (es : List LEvent) : ListenerState :=
  es.foldl listenerStep s

/-! ## Role-scoped query construction (ProjectScreen.tsx lines 55-64,
TimesheetScreen.tsx lines 50-76) and Firestore filter semantics -/

/-- The `where(...)` constraints the screens build. -/
inductive QueryConstraint where
  | whereEq (field value : String)
  | whereArrayContains (field value : String)
  deriving DecidableEq

/-- A document field value, as far as the built queries inspect one. -/
inductive FieldValue where
  | str (s : String)
  | arr (l : List String)
  deriving DecidableEq

/-- A store document for filter evaluation purposes. -/
def StoreDoc := List (String × FieldValue)

/-- Firestore satisfaction of one constraint by one document. -/
def docSatisfies (d : StoreDoc) : QueryConstraint → Bool
  | .whereEq f v =>
      match List.lookup f d with
      | some (.str s) => s == v
      | _ => false
  | .whereArrayContains f v =>
      match List.lookup f d with
      | some (.arr l) => l.contains v
      | _ => false

/-- A document matches a query iff it satisfies every constraint (the empty
constraint list is the unfiltered collection query). -/
def matchesAll (d : StoreDoc) (cs : List QueryConstraint) : Bool :=
  cs.all (docSatisfies d)

/-- The projects query of ProjectScreen: `isAdmin ? projectsRef :
query(projectsRef, where('assignedUsers', 'array-contains', user.uid))`. -/
def projectsQueryConstraints (uid : String) (isAdmin : Bool) : List QueryConstraint :=
  if isAdmin then [] else [.whereArrayContains "assignedUsers" uid]

/-- The tasks query of TimesheetScreen: admins get
`where('projectId', '==', projectId)`; everyone else
`where('userId', '==', user.uid), where('projectId', '==', projectId)`.
Built only when both a user and a projectId are present (the screen
otherwise skips subscribing), hence the `Option` inputs and result. -/
def tasksQueryConstraints (user : Option String) (role : String)
    (projectId : Option String) : Option (List QueryConstraint) :=
  match user, projectId with
  | some uid, some pid =>
      some (if role = "admin" then [.whereEq "projectId" pid]
            else [.whereEq "userId" uid, .whereEq "projectId" pid])
  | _, _ => none

/-- The fields of a project document the filters can look at. -/
def projectDoc (p : Project) : StoreDoc :=
  [("name", .str p.name), ("createdBy", .str p.createdBy),
   ("assignedUsers", .arr p.assignedUsers)]

/-- The fields of a task document the filters can look at. -/
def taskDoc (t : TimeEntry) : StoreDoc :=
  [("date", .str t.date), ("projectId", .str t.projectId),
   ("projectName", .str t.projectName), ("task", .str t.task),
   ("hours", .str t.hours), ("userId", .str t.userId)]

/-! ## Batch operation runner (performance.ts lines 145-158) -/

/-- The slice-and-await loop of `batchOperation`: each asynchronous
operation is modelled by the result it resolves to, so
`operations.slice(i, i + batchSize)` awaited by `Promise.all` contributes
its results in slice order.  The fuel argument bounds the loop iterations
(`ops.length` iterations always suffice once `batchSize ≥ 1`; the source
loop `for (let i = 0; ...; i += batchSize)` would not terminate for
`batchSize = 0`). -/
def batchLoop (ops : List α) (batchSize : ℕ) : ℕ → ℕ → List α
  | 0, _ => []
  | fuel + 1, i =>
      if i < ops.length then
        (ops.drop i).take batchSize ++ batchLoop ops batchSize fuel (i + batchSize)
      else []

/-- `batchOperation(operations, batchSize)`: concatenation of the per-batch
result arrays, in loop order. -/
def batchOperation (ops : List α) (batchSize : ℕ) : List α :=
  batchLoop ops batchSize ops.length 0

/-!  # Theorems  -/

/-- Helper: once a handle is quiescent (no live subscription, no pending
retry timer), no sequence of further events establishes a subscription,
runs `onError`, or schedules a timer. -/
theorem listener_quiescent (s : ListenerState) (hp : s.pending = []) (ha : s.active = false)
    (es : List LEvent) :
    (listenerRun s es).subCount = s.subCount
  ∧ (listenerRun s es).onErrorCount = s.onErrorCount
  ∧ (listenerRun s es).pending = []
  ∧ (listenerRun s es).active = false := by
  induction es generalizing s with
  | nil => exact ⟨rfl, rfl, hp, ha⟩
  | cons e es ih =>
      have hrun : listenerRun s (e :: es) = listenerRun (listenerStep s e) es := rfl
      rw [hrun]
      cases e with
      | snapshot =>
          have hs : listenerStep s .snapshot = s := by simp [listenerStep, ha]
          rw [hs]; exact ih s hp ha
      | error =>
          have hs : listenerStep s .error = s := by simp [listenerStep, ha]
          rw [hs]; exact ih s hp ha
      | timerFire =>
          have hs : listenerStep s .timerFire = s := by simp [listenerStep, hp]
          rw [hs]; exact ih s hp ha
      | cancel =>
          by_cases hu : s.unsubSet = true
          · have hs : listenerStep s .cancel
                = { s with active := false, cancelSeen := true } := by
              simp [listenerStep, hu]
            rw [hs]
            exact ih _ hp rfl
          · have hs : listenerStep s .cancel = { s with cancelSeen := true } := by
              simp [listenerStep, hu]
            rw [hs]
            exact ih _ hp ha

/-- Claim C1, counterexample: at the very first subscription error the
handle has retries_so_far = 0 < maxRetries = 3, yet the scheduled retry
delay is 2000 ms — `Math.pow(2, retryCount) * 1000` is computed **after**
`retryCount++` — and not the claimed `2 ^ 0` seconds = 1000 ms. -/
theorem backoff_first_delay_counterexample :
    (createOptimizedListener 3).retryCount = 0
  ∧ (listenerStep (createOptimizedListener 3) .error).pending = [2000]
  ∧ (listenerStep (createOptimizedListener 3) .error).pending ≠ [2 ^ 0 * 1000] := by
  decide

/-- Claim C1, amended: on a subscription error with retries_so_far = k <
maxRetries, the counter becomes k + 1 and the fresh attempt is scheduled
after `2 ^ (k + 1)` seconds, so consecutive failures with maxRetries = 3 are
retried after delays of 2, 4 and 8 seconds (the closed conjuncts trace
exactly that run). -/
theorem backoff_delay (s : ListenerState) (h : s.active = true)
    (hk : s.retryCount < s.maxRetries) :
    ((listenerStep s .error).pending = s.pending ++ [2 ^ (s.retryCount + 1) * 1000]
  ∧ (listenerStep s .error).retryCount = s.retryCount + 1)
  ∧ (listenerRun (createOptimizedListener 3) [.error]).pending = [2 * 1000]
  ∧ (listenerRun (createOptimizedListener 3)
       [.error, .timerFire, .error]).pending = [4 * 1000]
  ∧ (listenerRun (createOptimizedListener 3)
       [.error, .timerFire, .error, .timerFire, .error]).pending = [8 * 1000] := by
  refine ⟨⟨?_, ?_⟩, by decide, by decide, by decide⟩ <;> simp [listenerStep, h, hk]

/-- Claim C1, witness for `backoff_delay` at the freshly created handle with
maxRetries = 3. -/
theorem backoff_delay_witness :
    ((createOptimizedListener 3).active = true
  ∧ (createOptimizedListener 3).retryCount < (createOptimizedListener 3).maxRetries)
  ∧ (listenerStep (createOptimizedListener 3) .error).pending
      = (createOptimizedListener 3).pending
          ++ [2 ^ ((createOptimizedListener 3).retryCount + 1) * 1000] :=
  ⟨⟨by decide, by decide⟩,
   (backoff_delay (createOptimizedListener 3) (by decide) (by decide)).1.1⟩

/-- Claim C2: the code violates the claim.  Run: one subscription error (a
retry timer is now pending), then the handle's cancel function, then the
timer fires.  Cancel does release the live subscription and a second cancel
is a no-op (last conjunct), but the fired timer finds `unsubscribe` still
non-null — cancel never clears it and never clears the timer — so
`setupListener()` runs again: a second underlying subscription is
established and live after cancellation. -/
theorem cancel_then_retry_resubscribes :
    (listenerStep (createOptimizedListener 3) .cancel).active = false
  ∧ (listenerRun (createOptimizedListener 3) [.error, .cancel, .timerFire]).cancelSeen = true
  ∧ (listenerRun (createOptimizedListener 3) [.error, .cancel, .timerFire]).subCount = 2
  ∧ (listenerRun (createOptimizedListener 3) [.error, .cancel, .timerFire]).active = true
  ∧ listenerStep (listenerStep (createOptimizedListener 3) .cancel) .cancel
      = listenerStep (createOptimizedListener 3) .cancel := by
  decide

/-- Claim C5: while retries remain (`retryCount < maxRetries`) an error
never runs `onError`; once the bound is exhausted (`maxRetries ≤
retryCount`) an error runs `onError` exactly once more and schedules
nothing.  The closed conjuncts trace maxRetries = 3 through four
consecutive errors: three re-subscription attempts happen (subCount 4
counts the initial subscription plus 3 retries), `onError` has run exactly
once, and afterwards no event sequence whatsoever re-subscribes or runs
`onError` again. -/
theorem retry_exhaustion_onError (s : ListenerState) (h : s.active = true) :
    ((s.retryCount < s.maxRetries →
        (listenerStep s .error).onErrorCount = s.onErrorCount)
  ∧ (s.maxRetries ≤ s.retryCount →
        (listenerStep s .error).onErrorCount = s.onErrorCount + 1
      ∧ (listenerStep s .error).pending = s.pending
      ∧ (listenerStep s .error).subCount = s.subCount))
  ∧ (listenerRun (createOptimizedListener 3)
       [.error, .timerFire, .error, .timerFire, .error, .timerFire, .error]).onErrorCount = 1
  ∧ (listenerRun (createOptimizedListener 3)
       [.error, .timerFire, .error, .timerFire, .error, .timerFire, .error]).subCount = 4
  ∧ ∀ es : List LEvent,
      (listenerRun (listenerRun (createOptimizedListener 3)
         [.error, .timerFire, .error, .timerFire, .error, .timerFire, .error]) es).onErrorCount = 1
    ∧ (listenerRun (listenerRun (createOptimizedListener 3)
         [.error, .timerFire, .error, .timerFire, .error, .timerFire, .error]) es).subCount = 4 := by
  refine ⟨⟨fun hk => ?_, fun hk => ?_⟩, by decide, by decide, fun es => ?_⟩
  · simp [listenerStep, h, hk]
  · have hk' : ¬ s.retryCount < s.maxRetries := not_lt.mpr hk
    refine ⟨?_, ?_, ?_⟩ <;> simp [listenerStep, h, hk']
  · obtain ⟨h1, h2, _, _⟩ := listener_quiescent
      (listenerRun (createOptimizedListener 3)
        [.error, .timerFire, .error, .timerFire, .error, .timerFire, .error])
      (by decide) (by decide) es
    rw [h1, h2]
    exact ⟨by decide, by decide⟩

/-- Claim C5, witness for `retry_exhaustion_onError` at the freshly created
handle with maxRetries = 3: an error with retries remaining does not run
`onError`. -/
theorem retry_exhaustion_onError_witness :
    (createOptimizedListener 3).active = true
  ∧ ((createOptimizedListener 3).retryCount < (createOptimizedListener 3).maxRetries
  ∧ (listenerStep (createOptimizedListener 3) .error).onErrorCount
      = (createOptimizedListener 3).onErrorCount) :=
  ⟨by decide, by decide,
   (retry_exhaustion_onError (createOptimizedListener 3) (by decide)).1.1 (by decide)⟩

/-- Claim C7: with an entry for `key` stored at `e.timestamp` with TTL
`e.ttl`, a read at `now` returns the stored array with no store query iff
`now - e.timestamp < e.ttl` (strict); at exactly the TTL or beyond it runs
the store query, overwrites the slot with the fresh result stamped `now`
and the supplied TTL, and returns the fresh result. -/
theorem getCachedQuery_ttl (m : CacheMap) (key : String) (e : CacheEntry)
    (now ttl : ℤ) (storeResult : List String)
    (h : cacheGet m key = some e) :
    (now - e.timestamp < e.ttl →
        getCachedQuery m key now ttl storeResult = ⟨e.data, m, false⟩)
  ∧ (e.ttl ≤ now - e.timestamp →
        (getCachedQuery m key now ttl storeResult).storeQueried = true
      ∧ (getCachedQuery m key now ttl storeResult).data = storeResult
      ∧ cacheGet (getCachedQuery m key now ttl storeResult).cache key
          = some ⟨storeResult, now, ttl⟩) := by
  have h' : List.lookup key m = some e := h
  constructor
  · intro hlt
    simp [getCachedQuery, cacheGet, h', hlt]
  · intro hge
    have hnot : ¬ (now - e.timestamp < e.ttl) := not_lt.mpr hge
    refine ⟨?_, ?_, ?_⟩ <;> simp [getCachedQuery, cacheGet, cacheSet, h', hnot, List.lookup]

/-- Claim C7, witness for `getCachedQuery_ttl`: a cache holding
`"projects_[]" ↦ (["a"], t0 = 0, ttl = 300000)` read at `now = 3` is a hit
returning the stored array and performing no store query. -/
theorem getCachedQuery_ttl_witness :
    cacheGet [("projects_[]", (⟨["a"], 0, 300000⟩ : CacheEntry))] "projects_[]"
      = some ⟨["a"], 0, 300000⟩
  ∧ getCachedQuery [("projects_[]", (⟨["a"], 0, 300000⟩ : CacheEntry))] "projects_[]"
      3 300000 ["fresh"]
      = ⟨["a"], [("projects_[]", (⟨["a"], 0, 300000⟩ : CacheEntry))], false⟩ :=
  ⟨by decide,
   (getCachedQuery_ttl [("projects_[]", ⟨["a"], 0, 300000⟩)] "projects_[]"
      ⟨["a"], 0, 300000⟩ 3 300000 ["fresh"] (by decide)).1 (by decide)⟩

/-- Helper: the slice loop of `batchOperation` yields exactly the remaining
operations once the fuel covers them and the step is positive. -/
theorem batchLoop_drop (ops : List α) (batchSize : ℕ) (hn : 1 ≤ batchSize)
    (fuel i : ℕ) (hf : ops.length ≤ i + fuel) :
    batchLoop ops batchSize fuel i = ops.drop i := by
  induction fuel generalizing i with
  | zero =>
      have : ops.length ≤ i := by omega
      simp [batchLoop, List.drop_eq_nil_of_le this]
  | succ fuel ih =>
      by_cases hi : i < ops.length
      · have hrest : batchLoop ops batchSize fuel (i + batchSize) = ops.drop (i + batchSize) :=
          ih (i + batchSize) (by omega)
        calc batchLoop ops batchSize (fuel + 1) i
            = (ops.drop i).take batchSize ++ batchLoop ops batchSize fuel (i + batchSize) := by
              simp [batchLoop, hi]
          _ = (ops.drop i).take batchSize ++ (ops.drop i).drop batchSize := by
              rw [hrest, List.drop_drop, Nat.add_comm]
          _ = ops.drop i := List.take_append_drop _ _
      · have : ops.length ≤ i := by omega
        simp [batchLoop, hi, List.drop_eq_nil_of_le this]

/-- Claim C10: for any batchSize ≥ 1, `batchOperation` returns the
concatenation of the per-batch result arrays, which equals running every
operation in original order — same length, each operation's result at its
own index (each asynchronous operation is modelled by the result it
resolves to). -/
theorem batchOperation_preserves_order (ops : List α) (batchSize : ℕ)
    (h : 1 ≤ batchSize) :
    batchOperation ops batchSize = ops := by
  unfold batchOperation
  rw [batchLoop_drop ops batchSize h ops.length 0 (by omega)]
  exact List.drop_zero ops

/-- Claim C10, witness for `batchOperation_preserves_order` at three
operations and batchSize 2. -/
theorem batchOperation_preserves_order_witness :
    1 ≤ 2 ∧ batchOperation [10, 20, 30] 2 = [10, 20, 30] :=
  ⟨by decide, batchOperation_preserves_order [10, 20, 30] 2 (by decide)⟩

/-- Claim C8: the projects query is unfiltered for administrators and
otherwise requires the user's id among the project's `assignedUsers`; the
tasks query scoped to a project is `projectId = pid` for administrators and
`projectId = pid AND userId = uid` otherwise (stated through Firestore
filter satisfaction on the built constraint lists). -/
theorem role_scoped_query_builder (uid role pid : String) (p : Project) (t : TimeEntry) :
    projectsQueryConstraints uid true = []
  ∧ projectsQueryConstraints uid false = [.whereArrayContains "assignedUsers" uid]
  ∧ (matchesAll (projectDoc p) (projectsQueryConstraints uid (role == "admin")) = true
       ↔ (role = "admin" ∨ uid ∈ p.assignedUsers))
  ∧ ((tasksQueryConstraints (some uid) role (some pid)).map
        (fun cs => matchesAll (taskDoc t) cs)
      = some ((t.projectId == pid) && ((role == "admin") || (t.userId == uid)))) := by
  by_cases hr : role = "admin"
  · simp [projectsQueryConstraints, tasksQueryConstraints, matchesAll, docSatisfies,
          projectDoc, taskDoc, List.lookup, hr, Bool.and_comm]
  · simp [projectsQueryConstraints, tasksQueryConstraints, matchesAll, docSatisfies,
          projectDoc, taskDoc, List.lookup, hr, Bool.and_comm, beq_eq_false_iff_ne.mpr hr]

/-- Helper: the reduce of `totalHours` started from any accumulator, when
every entry's hours string (with the `|| '0'` fallback) parses to a
number. -/
theorem totalHours_foldl_acc (entries : List TimeEntry) (acc : ℚ)
    (h : ∀ e ∈ entries, (jsParseFloat (jsStrOr e.hours "0")).isSome = true) :
    entries.foldl (fun sum e => jsAdd sum (jsParseFloat (jsStrOr e.hours "0"))) (some acc)
      = some (acc + (entries.map
          (fun e => (jsParseFloat (jsStrOr e.hours "0")).getD 0)).sum) := by
  induction entries generalizing acc with
  | nil => simp
  | cons e es ih =>
      obtain ⟨v, hv⟩ := Option.isSome_iff_exists.mp (h e (List.mem_cons_self e es))
      have hrest : ∀ e' ∈ es, (jsParseFloat (jsStrOr e'.hours "0")).isSome = true :=
        fun e' he' => h e' (List.mem_cons_of_mem e he')
      have hstep : jsAdd (some acc) (jsParseFloat (jsStrOr e.hours "0")) = some (acc + v) := by
        rw [hv]; rfl
      simp only [List.foldl_cons, hstep, List.map_cons, List.sum_cons, hv, Option.getD_some]
      rw [show jsAdd (some acc) (some v) = some (acc + v) from rfl,
          ih (acc + v) hrest, add_assoc]

/-- Claim C3, counterexample: the code computes
`sum + parseFloat(entry.hours || '0')`, so an empty hours string indeed
contributes 0, but a non-numeric hours string such as "abc" parses to NaN
and poisons the whole total (modelled as `none`) — it does not contribute 0
as the claim states. -/
theorem totalHours_nonNumeric_counterexample :
    totalHours [⟨"e1", "2024-01-01", "p1", "P", "work", "abc", "u1"⟩] = none
  ∧ totalHours [⟨"e1", "2024-01-01", "p1", "P", "work", "abc", "u1"⟩] ≠ some 0 := by
  decide

/-- Claim C3, amended: when every entry's hours string is empty or parses
to a number, `totalHours` is the sum of the parsed values with empty
strings contributing 0 (in particular hours "2", "1.5", "" sum to 3.5);
but an entry whose non-empty hours string fails to parse turns the whole
total into NaN rather than contributing 0. -/
theorem totalHours_sum_of_parsed (entries : List TimeEntry)
    (h : ∀ e ∈ entries, (jsParseFloat (jsStrOr e.hours "0")).isSome = true) :
    totalHours entries
      = some ((entries.map (fun e => (jsParseFloat (jsStrOr e.hours "0")).getD 0)).sum)
  ∧ totalHours [⟨"e1", "d", "p1", "P", "w", "2", "u1"⟩,
                ⟨"e2", "d", "p1", "P", "w", "1.5", "u1"⟩,
                ⟨"e3", "d", "p1", "P", "w", "", "u1"⟩] = some (7/2) := by
  constructor
  · unfold totalHours
    rw [totalHours_foldl_acc entries 0 h]
    rw [zero_add]
  · decide

/-- Claim C3, witness for `totalHours_sum_of_parsed` at the list with hours
"2", "1.5" and "". -/
theorem totalHours_sum_of_parsed_witness :
    (∀ e ∈ [(⟨"e1", "d", "p1", "P", "w", "2", "u1"⟩ : TimeEntry),
            ⟨"e2", "d", "p1", "P", "w", "1.5", "u1"⟩,
            ⟨"e3", "d", "p1", "P", "w", "", "u1"⟩],
       (jsParseFloat (jsStrOr e.hours "0")).isSome = true)
  ∧ totalHours [⟨"e1", "d", "p1", "P", "w", "2", "u1"⟩,
                ⟨"e2", "d", "p1", "P", "w", "1.5", "u1"⟩,
                ⟨"e3", "d", "p1", "P", "w", "", "u1"⟩]
      = some (([(⟨"e1", "d", "p1", "P", "w", "2", "u1"⟩ : TimeEntry),
                ⟨"e2", "d", "p1", "P", "w", "1.5", "u1"⟩,
                ⟨"e3", "d", "p1", "P", "w", "", "u1"⟩].map
          (fun e => (jsParseFloat (jsStrOr e.hours "0")).getD 0)).sum) :=
  ⟨by decide,
   (totalHours_sum_of_parsed [⟨"e1", "d", "p1", "P", "w", "2", "u1"⟩,
      ⟨"e2", "d", "p1", "P", "w", "1.5", "u1"⟩,
      ⟨"e3", "d", "p1", "P", "w", "", "u1"⟩] (by decide)).1⟩

/-- Claim C4, counterexample: a non-numeric hours string is NOT detected
before I/O.  In NewEntryScreen, `parseFloat("abc")` is NaN, both range
comparisons are false, validation reaches `passed` and store access
proceeds; in TimesheetScreen the creation checks only field presence, so
the out-of-range hours "30" also proceeds to store access. -/
theorem validation_gap_counterexample :
    newEntryValidate "2024-01-01" "write code" "abc" = .passed
  ∧ jsParseFloat "abc" = none
  ∧ newEntryStoreOps "2024-01-01" "write code" "abc" (some "p1") ≠ []
  ∧ timesheetValidate "2024-01-01" "write code" "30" = .passed
  ∧ timesheetStoreOps "2024-01-01" "write code" "30" (some "p1") ≠ []
  ∧ jsParseFloat "30" = some 30 := by
  decide

/-- Claim C4, amended: when validation fails the creation short-circuits
with no store access, and missing required fields always fail validation in
both creation paths; in NewEntryScreen an hours string that parses to a
number outside (0, 24] also fails validation before any I/O.  (What the
counterexample removes from the original claim: a non-numeric hours string
is not detected — NaN passes both comparisons — and TimesheetScreen's
creation has no range check at all.) -/
theorem validation_short_circuit (date task hours : String) (pid : Option String) (q : ℚ) :
    (newEntryValidate date task hours ≠ .passed → newEntryStoreOps date task hours pid = [])
  ∧ (timesheetValidate date task hours ≠ .passed → timesheetStoreOps date task hours pid = [])
  ∧ ((date = "" ∨ task = "" ∨ hours = "") →
        newEntryValidate date task hours = .missingFields
      ∧ timesheetValidate date task hours = .missingFields)
  ∧ (jsParseFloat hours = some q → ¬ (date = "" ∨ task = "" ∨ hours = "") →
        (q ≤ 0 → newEntryValidate date task hours = .nonPositiveHours)
      ∧ (24 < q → newEntryValidate date task hours = .hoursTooLarge)) := by
  refine ⟨?_, ?_, ?_, ?_⟩
  · intro hne
    unfold newEntryStoreOps
    cases hval : newEntryValidate date task hours <;> simp_all
  · intro hne
    unfold timesheetStoreOps
    cases hval : timesheetValidate date task hours <;> simp_all
  · intro hmiss
    exact ⟨by simp [newEntryValidate, hmiss], by simp [timesheetValidate, hmiss]⟩
  · intro hq hfull
    constructor
    · intro hq0
      simp [newEntryValidate, hfull, jsLe, hq, hq0]
    · intro h24
      have hq0 : ¬ q ≤ 0 := by linarith
      simp [newEntryValidate, hfull, jsLe, jsGt, hq, hq0, h24]

/-- Claim C4, witness for `validation_short_circuit`: an empty date fails
validation and the creation performs no store access. -/
theorem validation_short_circuit_witness :
    newEntryValidate "" "write code" "2" ≠ .passed
  ∧ newEntryStoreOps "" "write code" "2" (some "p1") = [] :=
  ⟨by decide, (validation_short_circuit "" "write code" "2" (some "p1") 0).1 (by decide)⟩

/-- Claim C6, counterexample: TimesheetScreen's creation path validates
only field presence, so an entry with hours "-5" passes validation and the
creation-side update drives a zero stored total to -5 < 0 — the
`totalHours >= 0` invariant is not preserved by every time-entry
operation. -/
theorem negative_total_counterexample :
    timesheetValidate "2024-01-01" "work" "-5" = .passed
  ∧ addEntryNewTotal (some 0) "-5" = some (-5)
  ∧ ((-5 : ℚ) < 0) := by
  decide

/-- Claim C6, amended: deletion updates the stored total to
`max(0, total - hours)`, so any numeric result of a deletion is ≥ 0;
creation adds the parsed hours to the stored total exactly once; and along
the validated NewEntryScreen path the parsed hours lie in (0, 24], so
creation from a nonnegative stored total stays positive.  (What the
counterexample removes: the TimesheetScreen creation path has no
validation or clamp, so a negative-parsing hours string makes the stored
total negative.) -/
theorem totalHours_nonneg_invariant (stored : Option ℚ) (hoursStr date task : String)
    (t q r : ℚ) :
    (deleteEntryNewTotal stored hoursStr = some r → 0 ≤ r)
  ∧ (jsParseFloat hoursStr = some q → addEntryNewTotal (some t) hoursStr = some (t + q))
  ∧ (newEntryValidate date task hoursStr = .passed → jsParseFloat hoursStr = some q →
        0 < q ∧ q ≤ 24 ∧ (0 ≤ t → 0 < t + q)) := by
  refine ⟨?_, ?_, ?_⟩
  · intro hr
    unfold deleteEntryNewTotal jsSub jsMaxZero at hr
    cases hp : jsParseFloat hoursStr with
    | none => rw [hp] at hr; simp at hr
    | some v =>
        rw [hp] at hr
        simp only [Option.some.injEq] at hr
        rw [← hr]
        exact le_max_left 0 _
  · intro hq
    simp [addEntryNewTotal, jsAdd, jsOrZero, hq]
  · intro hpass hq
    unfold newEntryValidate at hpass
    by_cases h1 : date = "" ∨ task = "" ∨ hoursStr = ""
    · simp [h1] at hpass
    · rw [if_neg h1] at hpass
      by_cases h2 : q ≤ 0
      · simp [jsLe, hq, h2] at hpass
      · by_cases h3 : (24 : ℚ) < q
        · simp [jsLe, jsGt, hq, h2, h3] at hpass
        · exact ⟨not_le.mp h2, not_lt.mp h3, fun ht => by linarith [not_le.mp h2]⟩

/-- Claim C6, witness for `totalHours_nonneg_invariant`: deleting a 5-hour
entry from a project whose stored total is 2 clamps the total at 0, which
is ≥ 0. -/
theorem totalHours_nonneg_invariant_witness :
    deleteEntryNewTotal (some 2) "5" = some 0 ∧ (0 : ℚ) ≤ 0 :=
  ⟨by decide, (totalHours_nonneg_invariant (some 2) "5" "d" "t" 0 0 0).1 (by decide)⟩

/-- Claim C9, counterexample: because the code gates on JS truthiness
(`!userData?.hourlyRate` and the ternary), a rate that is set to exactly 0
renders the same "No hourly rate set" marker as an absent rate — at the
presentation boundary a set-to-zero rate (earning exactly zero) is NOT
distinguishable from an unset rate. -/
theorem zero_rate_counterexample :
    summaryDisplay (some 0) 5 = .noRateSet
  ∧ summaryDisplay none 5 = .noRateSet
  ∧ some (0 : ℚ) ≠ (none : Option ℚ)
  ∧ totalEarnings (some 0) 5 = 0 := by
  decide

/-- Claim C9, amended: earnings equal totalHours times the rate whenever
the rate is set (including a zero rate, where both sides are 0) and 0 when
the rate is unset; the presentation shows the earnings figure for any set
nonzero rate and the "no rate" marker for an unset rate — but a rate set
to exactly 0 also shows the "no rate" marker (JS falsiness), which is the
one case where "not set" and "earned exactly zero" coincide. -/
theorem earnings_presentation (hrs : ℚ) :
    totalEarnings none hrs = 0
  ∧ (∀ r : ℚ, totalEarnings (some r) hrs = hrs * r)
  ∧ summaryDisplay none hrs = .noRateSet
  ∧ (∀ r : ℚ, r ≠ 0 → summaryDisplay (some r) hrs = .earnings (hrs * r))
  ∧ summaryDisplay (some 0) hrs = .noRateSet := by
  refine ⟨rfl, fun r => ?_, rfl, fun r hr => ?_, ?_⟩
  · by_cases h : r = 0
    · subst h; simp [totalEarnings, jsFalsyNum]
    · simp [totalEarnings, jsFalsyNum, h]
  · simp [summaryDisplay, totalEarnings, jsFalsyNum, hr]
  · simp [summaryDisplay, jsFalsyNum]

/-- Claim C9, witness for `earnings_presentation`: 3.5 hours at a set rate
of 10 display as earnings 35. -/
theorem earnings_presentation_witness :
    (10 : ℚ) ≠ 0 ∧ summaryDisplay (some 10) (7/2) = .earnings ((7/2) * 10) :=
  ⟨by decide, (earnings_presentation (7/2)).2.2.2.1 10 (by decide)⟩
